import Mathlib

/-!
Verification of the multimaster distributed-commit core (multimaster.c and
pglogical_proto.c): a shallow embedding, in Lean, of the logical clock / CSN
allocator, the MVCC visibility loop, the cluster-status refresh, the
recovery catch-up check, the prepare-vote timeout, the heartbeat watchdog,
the replication-output filter and transaction begin, together with theorems
about each.

Conventions of the embedding:
* C `int64`/`csn_t`/`timestamp_t` values are modelled as `Int` (the
  microsecond magnitudes involved are far below 2^63, so signed overflow
  never occurs on the real values and is not modelled);
* `nodemask_t` bitmasks are modelled as `Nat` with the bit operations
  mirroring the `BIT_SET`/`BIT_CLEAR`/`BIT_CHECK` macros;
* global mutable state becomes explicit state records passed and returned;
* `elog(ERROR, ...)` becomes an `Except String` error result;
* reads of shared memory that other processes may concurrently change
  (the transaction-state hash during the visibility wait, the vote flags
  during the prepare wait) are modelled as observation streams supplied as
  parameters.
-/

namespace Mmts

/-! ### Constants (multimaster.c) -/

def MIN_WAIT_TIMEOUT : Nat := 1000

def MAX_WAIT_TIMEOUT : Nat := 100000

def MAX_WAIT_LOOPS : Nat := 100

/-- `INVALID_CSN` of `multimaster.h` (`csn_t` is a signed 64-bit integer). -/
def INVALID_CSN : Int := -1

/-- `MSEC_TO_USEC(t)` conversion macro: milliseconds to microseconds. -/
def MSEC_TO_USEC (t : Int) : Int := t * 1000

/-! ### Bit operations on node masks

`BIT_SET(mask, bit)`, `BIT_CLEAR(mask, bit)` and `BIT_CHECK(mask, bit)` of
`multimaster.h`; `Nat.testBit` plays the role of `BIT_CHECK`. -/

/-- `mask |= 1 << i` -/
def setBit (m i : Nat) : Nat := m ||| (1 <<< i)

/-- Bitwise `a & ~b` on natural numbers, written without a complement. -/
def andNot (a b : Nat) : Nat := a ^^^ (a &&& b)

/-- `mask &= ~(1 << i)` -/
def clearBit (m i : Nat) : Nat := andNot m (1 <<< i)

/-- `((nodemask_t)1 << n) - 1`: the low `n` bits set. -/
def onesMask (n : Nat) : Nat := (1 <<< n) - 1

/-! ### Logical clock and CSN allocator (multimaster.c lines 292-341)

`Mtm->csn` (the last assigned CSN) and `Mtm->timeShift` are the only pieces
of shared state these functions touch; `gettimeofday` is supplied as an
explicit wall-clock argument. -/

structure MtmClockState where
  csn : Int
  timeShift : Int
deriving DecidableEq, Repr

/-- `MtmGetCurrentTime`: system time plus `Mtm->timeShift`. -/
def MtmGetCurrentTime (wall : Int) (s : MtmClockState) : Int :=
  wall + s.timeShift

/-- `MtmAssignCSN` (multimaster.c lines 320-329): returns an ascending unique
timestamp used as a CSN and records it in `Mtm->csn`. -/
def MtmAssignCSN (wall : Int) (s : MtmClockState) : Int × MtmClockState :=
  let csn := MtmGetCurrentTime wall s
  if csn ≤ s.csn then (s.csn + 1, { s with csn := s.csn + 1 })
  else (csn, { s with csn := csn })

/-- A sequence of `MtmAssignCSN` calls on one node, each with its own
wall-clock reading, threading the shared clock state; returns the list of
CSNs handed out. -/
def MtmAssignCSNSeq : List Int → MtmClockState → List Int × MtmClockState
  | [], s => ([], s)
  | w :: ws, s =>
    let p := MtmAssignCSN w s
    let q := MtmAssignCSNSeq ws p.2
    (p.1 :: q.1, q.2)

/-- MtmSyncClock (multimaster.c lines 334-341): "adjust" the clock when a
message from the future arrives.  Loops calling `MtmAssignCSN` (each
iteration with a fresh wall-clock reading `walls (k+…)`) and pushing
`timeShift` forward until the assigned CSN reaches `global`. -/
def MtmSyncClock (global : Int) (walls : Nat → Int) (k : Nat)
    (s : MtmClockState) : Int × MtmClockState :=
  if (MtmAssignCSN (walls k) s).1 < global then
    MtmSyncClock global walls (k + 1)
      { csn := (MtmAssignCSN (walls k) s).2.csn,
        timeShift := (MtmAssignCSN (walls k) s).2.timeShift +
          (global - (MtmAssignCSN (walls k) s).1) }
  else MtmAssignCSN (walls k) s
termination_by (global - s.csn).toNat
decreasing_by
  rename_i h
  simp only [MtmAssignCSN, MtmGetCurrentTime] at h ⊢
  by_cases hc : walls k + s.timeShift ≤ s.csn
  · simp [hc] at h ⊢; omega
  · simp [hc] at h ⊢; omega

/-! ### Transaction status and state (multimaster.h)

`TRANSACTION_STATUS_IN_PROGRESS / COMMITTED / ABORTED` come from the host
engine's clog; `TRANSACTION_STATUS_UNKNOWN` is the multimaster "in-doubt"
marker.  Only the fields consulted by the visibility check are modelled. -/

inductive XidStatus where
  | inProgress
  | committed
  | aborted
  | unknown
deriving DecidableEq, Repr

structure MtmTransState where
  status : XidStatus
  csn : Int
deriving DecidableEq, Repr

/-! ### Visibility check (MtmXidInMVCCSnapshot, multimaster.c lines 428-511)

The checker holds the state lock only between `MtmLock`/`MtmUnlock` pairs;
other backends may finalize the in-doubt transaction between retries, so
the per-retry view of `MtmXid2State` is an observation stream
`obs : Nat → Option MtmTransState` (`obs i` is what `hash_search` finds on
iteration `i`).  The lock/unlock/sleep behaviour is recorded as an event
trace.  `pg` is the result the host's `PgXidInMVCCSnapshot` fallback would
give.  The returned `Bool` follows the C convention: `true` means the XID
is *in* the snapshot, i.e. its tuples are invisible. -/

inductive VisEvent where
  | lock
  | unlock
  | sleep (delay : Nat)
deriving DecidableEq, Repr

def isSleep : VisEvent → Bool
  | VisEvent.sleep _ => true
  | _ => false

/-- The back-off step at lines 487-489: double the delay unless that would
exceed `MAX_WAIT_TIMEOUT`. -/
def visNextDelay (d : Nat) : Nat :=
  if d * 2 ≤ MAX_WAIT_TIMEOUT then d * 2 else d

def visStatusErrorMsg : String := "Failed to get status of XID"

/-- The `for (i = 0; i < MAX_WAIT_LOOPS; i++)` loop, with `n` iterations
remaining, `i` the current iteration index and `delay` the current back-off
interval.  The trace excludes the initial `MtmLock` (added by the wrapper). -/
def MtmXidVisLoop (snapshot : Int) (obs : Nat → Option MtmTransState) (pg : Bool) :
    Nat → Nat → Nat → Except String Bool × List VisEvent
  | 0, _, _ => (Except.error visStatusErrorMsg, [VisEvent.unlock])
  | n + 1, i, delay =>
    match obs i with
    | some ts =>
      if snapshot < ts.csn then (Except.ok true, [VisEvent.unlock])
      else if ts.status = XidStatus.unknown then
        let rest := MtmXidVisLoop snapshot obs pg n (i + 1) (visNextDelay delay)
        (rest.1, VisEvent.unlock :: VisEvent.sleep delay :: VisEvent.lock :: rest.2)
      else (Except.ok (decide (ts.status ≠ XidStatus.committed)), [VisEvent.unlock])
    | none => (Except.ok pg, [VisEvent.unlock])

def MtmXidInMVCCSnapshot (snapshot : Int) (obs : Nat → Option MtmTransState)
    (pg : Bool) : Except String Bool × List VisEvent :=
  ((MtmXidVisLoop snapshot obs pg MAX_WAIT_LOOPS 0 MIN_WAIT_TIMEOUT).1,
   VisEvent.lock :: (MtmXidVisLoop snapshot obs pg MAX_WAIT_LOOPS 0 MIN_WAIT_TIMEOUT).2)

/-- Count of `sleep` events, i.e. retries actually slept through. -/
def sleepCount (l : List VisEvent) : Nat :=
  (l.filter isSleep).length

/-- The sequence of sleep intervals in a trace. -/
def sleepDelays : List VisEvent → List Nat
  | [] => []
  | VisEvent.sleep d :: rest => d :: sleepDelays rest
  | _ :: rest => sleepDelays rest

/-- `sleepOkAux prev l` holds when every `sleep` in `l` is immediately
preceded by its predecessor event being `unlock` (with `prev` the event
just before `l`). -/
def sleepOkAux : VisEvent → List VisEvent → Bool
  | _, [] => true
  | prev, e :: rest =>
    (!(isSleep e) || decide (prev = VisEvent.unlock)) && sleepOkAux e rest

/-- Every sleep in the trace is immediately preceded by an unlock, and the
trace does not begin with a sleep. -/
def sleepsFollowUnlock : List VisEvent → Bool
  | [] => true
  | e :: rest => !(isSleep e) && sleepOkAux e rest

/-! ### Cluster shared state (struct MtmState, multimaster.h)

Fields touched by node enable/disable, the watchdog, the cluster-status
refresh and the recovery catch-up check.  `MtmNodeId` (the id of the node
this code runs on), the current system time and configuration knobs are
passed as explicit arguments. -/

inductive MtmNodeStatus where
  | initialization
  | offline
  | connected
  | online
  | recovery
  | inMinority
  | outOfService
deriving DecidableEq, Repr

structure MtmNodeInfo where
  lastStatusChangeTime : Int
  lastHeartbeat : Int
deriving DecidableEq, Repr

instance : Inhabited MtmNodeInfo := ⟨⟨0, 0⟩⟩

structure MtmState where
  disabledNodeMask : Nat
  reconnectMask : Nat
  nodeLockerMask : Nat
  walSenderLockerMask : Nat
  nLockers : Int
  nLiveNodes : Int
  nAllNodes : Nat
  nActiveTransactions : Int
  nConfigChanges : Int
  status : MtmNodeStatus
  nodes : List MtmNodeInfo
deriving DecidableEq, Repr

/-- `MtmDisableNode` (multimaster.c lines 1213-1222). -/
def MtmDisableNode (nodeId : Nat) (sysTime : Int) (myNodeId : Nat)
    (s : MtmState) : MtmState :=
  { s with
    disabledNodeMask := setBit s.disabledNodeMask (nodeId - 1),
    nodes := s.nodes.set (nodeId - 1)
      { lastStatusChangeTime := sysTime, lastHeartbeat := 0 },
    nLiveNodes := if nodeId ≠ myNodeId then s.nLiveNodes - 1 else s.nLiveNodes }

/-- `MtmEnableNode` (multimaster.c lines 1224-1234). -/
def MtmEnableNode (nodeId : Nat) (sysTime : Int) (myNodeId : Nat)
    (s : MtmState) : MtmState :=
  { s with
    disabledNodeMask := clearBit s.disabledNodeMask (nodeId - 1),
    reconnectMask := clearBit s.reconnectMask (nodeId - 1),
    nodes := s.nodes.set (nodeId - 1)
      { lastStatusChangeTime := sysTime, lastHeartbeat := 0 },
    nLiveNodes := if nodeId ≠ myNodeId then s.nLiveNodes + 1 else s.nLiveNodes }

/-- `MtmSwitchClusterMode` (multimaster.c lines 1361-1366). -/
def MtmSwitchClusterMode (mode : MtmNodeStatus) (s : MtmState) : MtmState :=
  { s with status := mode }

/-- `MtmCheckQuorum` (multimaster.c lines 1552-1566). -/
def MtmCheckQuorum (s : MtmState) : MtmState :=
  let s1 : MtmState := { s with nConfigChanges := s.nConfigChanges + 1 }
  if s1.nLiveNodes < (s1.nAllNodes : Int) / 2 + 1 then
    if s1.status = MtmNodeStatus.online then
      MtmSwitchClusterMode MtmNodeStatus.inMinority s1
    else s1
  else
    if s1.status = MtmNodeStatus.inMinority then
      MtmSwitchClusterMode MtmNodeStatus.online s1
    else s1

/-- `MtmStartRecovery` (multimaster.c lines 1065-1071). -/
def MtmStartRecovery (myNodeId : Nat) (s : MtmState) : MtmState :=
  MtmSwitchClusterMode MtmNodeStatus.recovery
    { s with disabledNodeMask := setBit s.disabledNodeMask (myNodeId - 1) }

/-- `MtmWatchdog` (multimaster.c lines 853-870): scan all nodes other than
self that are not disabled; report (via `MtmOnNodeDisconnect`) every node
whose last heartbeat is nonzero and older than the receive timeout.
Returns `allAlive` and the list of node ids handed to
`MtmOnNodeDisconnect`. -/
def MtmWatchdog (now : Int) (heartbeatRecvTimeout : Int) (myNodeId : Nat)
    (s : MtmState) : Bool × List Nat :=
  let ids := (List.range s.nAllNodes).filterMap fun i =>
    if i + 1 ≠ myNodeId ∧ ¬ s.disabledNodeMask.testBit i ∧
        (s.nodes.getD i default).lastHeartbeat ≠ 0 ∧
        (s.nodes.getD i default).lastHeartbeat +
          MSEC_TO_USEC heartbeatRecvTimeout < now
    then some (i + 1) else none
  (ids.isEmpty, ids)

/-! `MtmRefreshClusterStatus` (multimaster.c lines 1465-1550) is embedded
below as a composition of named stages, from the point where the maximum
clique of the connectivity graph has been computed
(`MtmBuildConnectivityMatrix`/`MtmFindMaxClique` live in other translation
units and are passed in as `clique`/`cliqueSize`).  The voting-interrupt
loop over the transaction list (lines 1513-1534) aborts in-flight
transactions but touches neither the node masks nor the cluster status, and
is not modelled here. -/

/-- Line 1493: `disabled = ~clique & (((nodemask_t)1 << Mtm->nAllNodes)-1) &
~Mtm->disabledNodeMask` — the mask of newly disabled nodes. -/
def refreshNewDisabled (clique : Nat) (s : MtmState) : Nat :=
  andNot (andNot (onesMask s.nAllNodes) clique) s.disabledNodeMask

/-- Lines 1495-1499: `MtmDisableNode(i+1)` for every set bit of `disabled`. -/
def refreshDisableAll (clique : Nat) (myNodeId : Nat) (sysTime : Int)
    (s : MtmState) : MtmState :=
  (List.range s.nAllNodes).foldl
    (fun st i =>
      if (refreshNewDisabled clique s).testBit i then
        MtmDisableNode (i + 1) sysTime myNodeId st
      else st) s

/-- Lines 1536-1544: react to one's own bit in the refreshed disabled mask. -/
def refreshOwnStatus (myNodeId : Nat) (s2 : MtmState) : MtmState :=
  if s2.disabledNodeMask.testBit (myNodeId - 1) then
    if s2.status = MtmNodeStatus.online then
      MtmSwitchClusterMode MtmNodeStatus.offline s2
    else s2
  else
    if s2.status = MtmNodeStatus.offline then MtmStartRecovery myNodeId s2
    else s2

def MtmRefreshClusterStatus (clique : Nat) (cliqueSize : Nat) (myNodeId : Nat)
    (sysTime : Int) (s : MtmState) : MtmState :=
  if s.nAllNodes / 2 + 1 ≤ cliqueSize then
    refreshOwnStatus myNodeId
      (if refreshNewDisabled clique s ≠ 0 then
        MtmCheckQuorum (refreshDisableAll clique myNodeId sysTime s)
      else refreshDisableAll clique myNodeId sysTime s)
  else
    MtmSwitchClusterMode MtmNodeStatus.inMinority s

/-- `MtmRecoveryCaughtUp` (multimaster.c lines 1319-1359), together with the
inlined `MtmIsRecoveredNode` check (lines 1305-1316).  `recoverySession` is
the wal-sender-local `MtmIsRecoverySession` flag, `walSndIdx` the index
`MyWalSnd - WalSndCtl->walsnds` of this wal-sender, `walLSN` the current
`GetXLogInsertRecPtr()` value. -/
def MtmRecoveryCaughtUp (nodeId : Nat) (slotLSN walLSN : Nat) (walSndIdx : Nat)
    (minRecoveryLag : Nat) (recoverySession : Bool) (sysTime : Int)
    (myNodeId : Nat) (s : MtmState) : Except String (Bool × MtmState) :=
  if s.disabledNodeMask.testBit (nodeId - 1) then
    if recoverySession = false then
      Except.error "Node is marked as disabled but is not in recovery mode"
    else if slotLSN = walLSN ∧ s.nActiveTransactions = 0 then
      let s1 :=
        if s.nodeLockerMask.testBit (nodeId - 1) then
          { s with
            walSenderLockerMask := clearBit s.walSenderLockerMask walSndIdx,
            nodeLockerMask := clearBit s.nodeLockerMask (nodeId - 1),
            nLockers := s.nLockers - 1 }
        else s
      let s2 := MtmEnableNode nodeId sysTime myNodeId s1
      Except.ok (true, { s2 with nConfigChanges := s2.nConfigChanges + 1 })
    else if ¬ s.nodeLockerMask.testBit (nodeId - 1) ∧ walLSN < slotLSN + minRecoveryLag
    then
      Except.ok (false,
        { s with
          nodeLockerMask := setBit s.nodeLockerMask (nodeId - 1),
          walSenderLockerMask := setBit s.walSenderLockerMask walSndIdx,
          nLockers := s.nLockers + 1 })
    else
      Except.ok (false, s)
  else
    /- node not disabled: `MtmIsRecoveredNode` clears the session-local
       recovery flag and the caller does nothing -/
    Except.ok (false, s)

/-! ### Coordinator vote wait (MtmPostPrepareTransaction, multimaster.c
lines 873-951), coordinator branch (lines 910-942).

The loop at lines 917-931 re-reads shared flags after each `WaitLatch`;
what matters for the timeout claim is the per-transaction deadline
computed at line 911, the loop-exit condition and the abort decision at
line 932, each of which is modelled as a function of the values read. -/

/-- Line 911: `Max(MSEC_TO_USEC(Mtm2PCMinTimeout),
(ts->csn - ts->snapshot) * Mtm2PCPrepareRatio / 100)`.  `csn0` is the CSN
assigned to the transaction at prepare, `snapshot` its begin snapshot; the
difference is the transaction's own prepare latency in microseconds. -/
def MtmPostPrepareTransTimeout (min2pcTimeout ratio csn0 snapshot : Int) : Int :=
  max (MSEC_TO_USEC min2pcTimeout) ((csn0 - snapshot) * ratio / 100)

/-- The `while` condition of lines 917-921: keep waiting only while votes
are incomplete, the configuration has not changed, the node is online, the
transaction is not aborted, and `start + transTimeout >= now`. -/
def postPrepareWaitCond (votingCompleted : Bool) (nConfigChanges0 nConfigChanges : Int)
    (clusterStatus : MtmNodeStatus) (tsStatus : XidStatus)
    (start transTimeout now : Int) : Bool :=
  !votingCompleted && decide (nConfigChanges0 = nConfigChanges) &&
    decide (clusterStatus = MtmNodeStatus.online) &&
    !(decide (tsStatus = XidStatus.aborted)) &&
    decide (now ≤ start + transTimeout)

/-- The decision at line 932: after the wait, `MtmAbortTransaction` is called
iff the transaction is not already aborted and either the votes are still
incomplete or the configuration changed. -/
def postPrepareAborts (tsStatus : XidStatus) (votingCompleted : Bool)
    (nConfigChanges0 nConfigChanges : Int) : Bool :=
  !(decide (tsStatus = XidStatus.aborted)) &&
    (!votingCompleted || !(decide (nConfigChanges0 = nConfigChanges)))

/-! ### Replication output plugin (pglogical_proto.c)

`pglogical_write_begin` / `pglogical_write_rel` / `pglogical_write_insert` /
`pglogical_write_update` / `pglogical_write_delete`, with the byte-level
payloads of tuples abstracted to message constructors.  The static
`MtmIsFilteredTxn` flag plus the bytes already written form the state.
`isRecovery` is `MtmIsRecoveredNode(MtmReplicationNodeId)` (whether the
receiving node is in recovery), `csn` is
`MtmTransactionSnapshot(txn->xid)`. -/

/-- `InvalidTransactionId` -/
def INVALID_XID : Nat := 0

inductive ProtoMsg where
  | beginMsg (nodeId : Nat) (xid : Nat) (csn : Int)
  | relMsg (nspname relname : String)
  | insertMsg
  | updateMsg (hasOldTuple : Bool)
  | deleteMsg
deriving DecidableEq, Repr

structure ProtoState where
  isFilteredTxn : Bool
  out : List ProtoMsg
deriving DecidableEq, Repr

/-- `pglogical_write_begin` (pglogical_proto.c lines 132-149): a transaction
whose snapshot CSN is invalid and that is not being sent to a recovering
node is marked filtered and its BEGIN is dropped; otherwise the `B` record
is emitted (with the xid blanked during recovery). -/
def pglogical_write_begin (isRecovery : Bool) (csn : Int) (myNodeId xid : Nat)
    (st : ProtoState) : ProtoState :=
  if csn = INVALID_CSN ∧ ¬ isRecovery then { st with isFilteredTxn := true }
  else
    { isFilteredTxn := false,
      out := st.out ++
        [ProtoMsg.beginMsg myNodeId (if isRecovery then INVALID_XID else xid) csn] }

/-- `pglogical_write_rel` (pglogical_proto.c lines 99-127). -/
def pglogical_write_rel (nspname relname : String) (st : ProtoState) : ProtoState :=
  if st.isFilteredTxn then st
  else { st with out := st.out ++ [ProtoMsg.relMsg nspname relname] }

/-- `pglogical_write_insert` (pglogical_proto.c lines 208-216). -/
def pglogical_write_insert (st : ProtoState) : ProtoState :=
  if st.isFilteredTxn then st
  else { st with out := st.out ++ [ProtoMsg.insertMsg] }

/-- `pglogical_write_update` (pglogical_proto.c lines 221-237). -/
def pglogical_write_update (hasOldTuple : Bool) (st : ProtoState) : ProtoState :=
  if st.isFilteredTxn then st
  else { st with out := st.out ++ [ProtoMsg.updateMsg hasOldTuple] }

/-- `pglogical_write_delete` (pglogical_proto.c lines 242-250). -/
def pglogical_write_delete (st : ProtoState) : ProtoState :=
  if st.isFilteredTxn then st
  else { st with out := st.out ++ [ProtoMsg.deleteMsg] }

/-- One decoded change of a transaction, dispatched to the writer above. -/
inductive TxnChange where
  | chRel (nspname relname : String)
  | chInsert
  | chUpdate (hasOldTuple : Bool)
  | chDelete
deriving DecidableEq, Repr

def pglogical_write_change : TxnChange → ProtoState → ProtoState
  | TxnChange.chRel nsp rel, st => pglogical_write_rel nsp rel st
  | TxnChange.chInsert, st => pglogical_write_insert st
  | TxnChange.chUpdate old, st => pglogical_write_update old st
  | TxnChange.chDelete, st => pglogical_write_delete st

/-- The message a change contributes when the transaction is not filtered. -/
def msgOfChange : TxnChange → ProtoMsg
  | TxnChange.chRel nsp rel => ProtoMsg.relMsg nsp rel
  | TxnChange.chInsert => ProtoMsg.insertMsg
  | TxnChange.chUpdate old => ProtoMsg.updateMsg old
  | TxnChange.chDelete => ProtoMsg.deleteMsg

/-- A whole transaction on the output side: the BEGIN callback followed by
the per-change callbacks, in stream order. -/
def pglogical_write_txn (isRecovery : Bool) (csn : Int) (myNodeId xid : Nat)
    (changes : List TxnChange) (st : ProtoState) : ProtoState :=
  changes.foldl (fun s c => pglogical_write_change c s)
    (pglogical_write_begin isRecovery csn myNodeId xid st)

/-! ### Transaction begin (MtmBeginTransaction, multimaster.c lines 713-749)

Host-engine reads (`GetCurrentTransactionIdIfAny`, `IsTransactionBlock`,
`MtmIsUserTransaction`, `application_name`, `XactIsoLevel`) are passed as
arguments; the garbage-collection prelude of lines 717-722
(`MtmAdjustOldestXid` every `MtmGcPeriod` transactions) maintains the
vacuum horizon and does not affect the fields of the transaction begun, so
it is not modelled.  `elog(ERROR, ...)` is an error result; `elog(LOG, ...)`
messages are returned as a log list. -/

structure MtmCurrentTrans where
  xid : Nat
  isReplicated : Bool
  isDistributed : Bool
  isPrepared : Bool
  isTransactionBlock : Bool
  containsDML : Bool
  snapshot : Int
  gtidXid : Nat
  gid : String
  status : XidStatus
deriving DecidableEq, Repr

inductive IsoLevel where
  | readUncommitted
  | readCommitted
  | repeatableRead
  | serializable
deriving DecidableEq, Repr

/-- `XACT_REPEATABLE_READ`, the only isolation level multimaster supports. -/
def XACT_REPEATABLE_READ : IsoLevel := IsoLevel.repeatableRead

def MtmBeginTransaction (x : MtmCurrentTrans) (isUser : Bool)
    (clusterStatus : MtmNodeStatus) (appNameIsAdmin : Bool)
    (isoLevel : IsoLevel) (currentXid : Nat) (inTxBlock : Bool) (wall : Int)
    (clock : MtmClockState) :
    Except String (MtmCurrentTrans × MtmClockState × List String) :=
  if x.snapshot = INVALID_CSN then
    if isUser ∧ clusterStatus ≠ MtmNodeStatus.online ∧ ¬ appNameIsAdmin then
      Except.error "Multimaster node is not online"
    else
      let logs :=
        if isUser ∧ isoLevel ≠ XACT_REPEATABLE_READ then
          ["Isolation level is not supported by multimaster"]
        else []
      Except.ok
        ({ x with
            xid := currentXid,
            isReplicated := false,
            isDistributed := isUser,
            isPrepared := false,
            isTransactionBlock := inTxBlock,
            containsDML := false,
            snapshot := (MtmAssignCSN wall clock).1,
            gtidXid := INVALID_XID,
            gid := "",
            status := XidStatus.inProgress },
          (MtmAssignCSN wall clock).2, logs)
  else Except.ok (x, clock, [])

/-! ### Supporting lemmas -/

theorem testBit_one_shl (i j : Nat) : ((1 <<< i) : Nat).testBit j = decide (j = i) := by
  rw [Nat.shiftLeft_eq, one_mul]
  rcases eq_or_ne j i with rfl | h
  · simp
  · simp [Nat.testBit_two_pow_of_ne (Ne.symm h), h]

theorem testBit_setBit (m i j : Nat) :
    (setBit m i).testBit j = (m.testBit j || decide (j = i)) := by
  rw [setBit, Nat.testBit_lor, testBit_one_shl]

theorem testBit_andNot (a b j : Nat) :
    (andNot a b).testBit j = (a.testBit j && !(b.testBit j)) := by
  simp only [andNot, Nat.testBit_xor, Nat.testBit_land]
  cases a.testBit j <;> cases b.testBit j <;> rfl

theorem testBit_clearBit (m i j : Nat) :
    (clearBit m i).testBit j = (m.testBit j && !(decide (j = i))) := by
  rw [clearBit, testBit_andNot, testBit_one_shl]

theorem MtmAssignCSN_fst (w : Int) (s : MtmClockState) :
    (MtmAssignCSN w s).1 = max (MtmGetCurrentTime w s) (s.csn + 1) := by
  simp only [MtmAssignCSN, MtmGetCurrentTime]
  split <;> omega

theorem MtmAssignCSN_snd_csn (w : Int) (s : MtmClockState) :
    (MtmAssignCSN w s).2.csn = (MtmAssignCSN w s).1 := by
  simp only [MtmAssignCSN]
  split <;> rfl

theorem MtmAssignCSN_snd_timeShift (w : Int) (s : MtmClockState) :
    (MtmAssignCSN w s).2.timeShift = s.timeShift := by
  simp only [MtmAssignCSN]
  split <;> rfl

theorem MtmAssignCSN_csn_lt (w : Int) (s : MtmClockState) :
    s.csn < (MtmAssignCSN w s).1 := by
  simp only [MtmAssignCSN, MtmGetCurrentTime]
  split <;> omega

theorem MtmAssignCSNSeq_gt (ws : List Int) (s : MtmClockState) :
    ∀ c ∈ (MtmAssignCSNSeq ws s).1, s.csn < c := by
  induction ws generalizing s with
  | nil => intro c hc; simp [MtmAssignCSNSeq] at hc
  | cons w ws ih =>
    intro c hc
    simp only [MtmAssignCSNSeq, List.mem_cons] at hc
    rcases hc with rfl | hc
    · exact MtmAssignCSN_csn_lt w s
    · have h1 := ih (MtmAssignCSN w s).2 c hc
      have h2 := MtmAssignCSN_snd_csn w s
      have h3 := MtmAssignCSN_csn_lt w s
      omega

theorem MtmSyncClock_fst_ge (global : Int) (walls : Nat → Int) (k : Nat)
    (s : MtmClockState) : global ≤ (MtmSyncClock global walls k s).1 := by
  rw [MtmSyncClock]
  split
  · exact MtmSyncClock_fst_ge global walls (k + 1) _
  · have h2 := MtmAssignCSN_csn_lt (walls k) s
    omega
termination_by (global - s.csn).toNat
decreasing_by
  have h1 := MtmAssignCSN_snd_csn (walls k) s
  have h2 := MtmAssignCSN_csn_lt (walls k) s
  omega

theorem MtmSyncClock_monotone (global : Int) (walls : Nat → Int) (k : Nat)
    (s : MtmClockState) :
    s.csn < (MtmSyncClock global walls k s).2.csn ∧
    s.timeShift ≤ (MtmSyncClock global walls k s).2.timeShift ∧
    (MtmSyncClock global walls k s).2.csn = (MtmSyncClock global walls k s).1 := by
  rw [MtmSyncClock]
  have h1 := MtmAssignCSN_snd_csn (walls k) s
  have h2 := MtmAssignCSN_csn_lt (walls k) s
  have h3 := MtmAssignCSN_snd_timeShift (walls k) s
  split
  · have ih := MtmSyncClock_monotone global walls (k + 1)
      { csn := (MtmAssignCSN (walls k) s).2.csn,
        timeShift := (MtmAssignCSN (walls k) s).2.timeShift +
          (global - (MtmAssignCSN (walls k) s).1) }
    simp only at ih
    refine ⟨by omega, by omega, ih.2.2⟩
  · exact ⟨by omega, by omega, h1⟩
termination_by (global - s.csn).toNat
decreasing_by
  omega

/-- If the clock has already reached `global` (`global ≤ s.csn`), the sync
loop body never runs: a single `MtmAssignCSN` happens and `timeShift` is
untouched. -/
theorem MtmSyncClock_already_synced (global : Int) (walls : Nat → Int) (k : Nat)
    (s : MtmClockState) (h : global ≤ s.csn) :
    MtmSyncClock global walls k s = MtmAssignCSN (walls k) s ∧
    (MtmSyncClock global walls k s).2.timeShift = s.timeShift := by
  have h2 := MtmAssignCSN_csn_lt (walls k) s
  have h3 := MtmAssignCSN_snd_timeShift (walls k) s
  rw [MtmSyncClock]
  have hnot : ¬ (MtmAssignCSN (walls k) s).1 < global := by omega
  simp only [hnot, if_false]
  exact ⟨trivial, h3⟩

theorem visLoop_sleepOkAux (snapshot : Int) (obs : Nat → Option MtmTransState)
    (pg : Bool) (n i delay : Nat) (prev : VisEvent) :
    sleepOkAux prev (MtmXidVisLoop snapshot obs pg n i delay).2 = true := by
  induction n generalizing i delay prev with
  | zero => rfl
  | succ n ih =>
    simp only [MtmXidVisLoop]
    match hobs : obs i with
    | none => rfl
    | some ts =>
      by_cases h1 : snapshot < ts.csn
      · simp [h1, sleepOkAux, isSleep]
      · by_cases h2 : ts.status = XidStatus.unknown
        · simp only [h1, if_false, h2, if_true]
          simp only [sleepOkAux, isSleep]
          simpa using ih (i + 1) (visNextDelay delay) VisEvent.lock
        · simp [h1, h2, sleepOkAux, isSleep]

theorem vis_trace_sleepsFollowUnlock (snapshot : Int)
    (obs : Nat → Option MtmTransState) (pg : Bool) :
    sleepsFollowUnlock (MtmXidInMVCCSnapshot snapshot obs pg).2 = true := by
  simp only [MtmXidInMVCCSnapshot, sleepsFollowUnlock, isSleep]
  simpa using visLoop_sleepOkAux snapshot obs pg MAX_WAIT_LOOPS 0 MIN_WAIT_TIMEOUT
    VisEvent.lock

theorem visLoop_delays_chain (snapshot : Int) (obs : Nat → Option MtmTransState)
    (pg : Bool) (n i delay : Nat) :
    (sleepDelays (MtmXidVisLoop snapshot obs pg n i delay).2 = [] ∨
      ∃ t, sleepDelays (MtmXidVisLoop snapshot obs pg n i delay).2 = delay :: t) ∧
    List.Chain' (fun a b => b = visNextDelay a)
      (sleepDelays (MtmXidVisLoop snapshot obs pg n i delay).2) := by
  induction n generalizing i delay with
  | zero => exact ⟨Or.inl rfl, by simp [MtmXidVisLoop, sleepDelays]⟩
  | succ n ih =>
    simp only [MtmXidVisLoop]
    match hobs : obs i with
    | none => exact ⟨Or.inl rfl, by simp [sleepDelays]⟩
    | some ts =>
      by_cases h1 : snapshot < ts.csn
      · simp only [h1, if_true]
        exact ⟨Or.inl rfl, by simp [sleepDelays]⟩
      · by_cases h2 : ts.status = XidStatus.unknown
        · simp only [h1, if_false, h2, if_true]
          simp only [sleepDelays]
          obtain ⟨hhead, hchain⟩ := ih (i + 1) (visNextDelay delay)
          refine ⟨Or.inr ⟨_, rfl⟩, ?_⟩
          rcases hhead with hnil | ⟨t, ht⟩
          · rw [hnil]; simp
          · rw [ht] at hchain ⊢
            exact List.Chain'.cons rfl hchain
        · simp only [h1, if_false, h2, if_false]
          exact ⟨Or.inl rfl, by simp [sleepDelays]⟩

theorem visNextDelay_bounds (d : Nat) (h1 : MIN_WAIT_TIMEOUT ≤ d)
    (h2 : d ≤ MAX_WAIT_TIMEOUT) :
    MIN_WAIT_TIMEOUT ≤ visNextDelay d ∧ visNextDelay d ≤ MAX_WAIT_TIMEOUT := by
  simp only [visNextDelay]
  split <;> constructor <;> omega

theorem visLoop_delays_bounded (snapshot : Int) (obs : Nat → Option MtmTransState)
    (pg : Bool) (n i delay : Nat) (hlo : MIN_WAIT_TIMEOUT ≤ delay)
    (hhi : delay ≤ MAX_WAIT_TIMEOUT) :
    ∀ d ∈ sleepDelays (MtmXidVisLoop snapshot obs pg n i delay).2,
      MIN_WAIT_TIMEOUT ≤ d ∧ d ≤ MAX_WAIT_TIMEOUT := by
  induction n generalizing i delay with
  | zero => intro d hd; simp [MtmXidVisLoop, sleepDelays] at hd
  | succ n ih =>
    intro d hd
    simp only [MtmXidVisLoop] at hd
    match hobs : obs i with
    | none => rw [hobs] at hd; simp [sleepDelays] at hd
    | some ts =>
      rw [hobs] at hd
      by_cases h1 : snapshot < ts.csn
      · simp [h1, sleepDelays] at hd
      · by_cases h2 : ts.status = XidStatus.unknown
        · simp only [h1, if_false, h2, if_true, sleepDelays, List.mem_cons] at hd
          rcases hd with rfl | hd
          · exact ⟨hlo, hhi⟩
          · have hb := visNextDelay_bounds delay hlo hhi
            exact ih (i + 1) (visNextDelay delay) hb.1 hb.2 d hd
        · simp [h1, h2, sleepDelays] at hd

/-- If the observed state stays in-doubt forever (always `unknown` with a
CSN not above the snapshot), the loop burns all `n` iterations, sleeping at
each one, and ends in the status error. -/
theorem visLoop_stuck_unknown (snapshot : Int) (obs : Nat → Option MtmTransState)
    (pg : Bool)
    (hstuck : ∀ j, ∃ ts, obs j = some ts ∧ ts.status = XidStatus.unknown ∧
      ts.csn ≤ snapshot) :
    ∀ n i delay,
      (MtmXidVisLoop snapshot obs pg n i delay).1 = Except.error visStatusErrorMsg ∧
      sleepCount (MtmXidVisLoop snapshot obs pg n i delay).2 = n := by
  intro n
  induction n with
  | zero => intro i delay; exact ⟨rfl, rfl⟩
  | succ n ih =>
    intro i delay
    obtain ⟨ts, hobs, hunk, hcsn⟩ := hstuck i
    have h1 : ¬ snapshot < ts.csn := by omega
    simp only [MtmXidVisLoop, hobs, h1, if_false, hunk, if_true]
    obtain ⟨ihr, ihc⟩ := ih (i + 1) (visNextDelay delay)
    refine ⟨ihr, ?_⟩
    simp only [sleepCount, List.filter, isSleep] at ihc ⊢
    simpa [sleepCount] using ihc

theorem testBit_onesMask (n j : Nat) : (onesMask n).testBit j = decide (j < n) := by
  rw [onesMask, Nat.shiftLeft_eq, one_mul, Nat.testBit_two_pow_sub_one]

theorem MtmAssignCSNSeq_chain (ws : List Int) (s : MtmClockState) :
    List.Chain' (fun a b => a < b) (MtmAssignCSNSeq ws s).1 := by
  induction ws generalizing s with
  | nil => simp [MtmAssignCSNSeq]
  | cons w ws ih =>
    simp only [MtmAssignCSNSeq]
    rw [List.chain'_cons']
    refine ⟨?_, ih (MtmAssignCSN w s).2⟩
    intro y hy
    have hmem := List.mem_of_mem_head? hy
    have h1 := MtmAssignCSNSeq_gt ws (MtmAssignCSN w s).2 y hmem
    have h2 := MtmAssignCSN_snd_csn w s
    omega

theorem MtmDisableNode_mask (nodeId : Nat) (t : Int) (my : Nat) (s : MtmState) :
    (MtmDisableNode nodeId t my s).disabledNodeMask =
      setBit s.disabledNodeMask (nodeId - 1) := rfl

theorem MtmCheckQuorum_mask (s : MtmState) :
    (MtmCheckQuorum s).disabledNodeMask = s.disabledNodeMask := by
  rw [MtmCheckQuorum]
  split
  · split <;> rfl
  · split <;> rfl

theorem MtmCheckQuorum_nodes (s : MtmState) :
    (MtmCheckQuorum s).nodes = s.nodes := by
  rw [MtmCheckQuorum]
  split
  · split <;> rfl
  · split <;> rfl

theorem MtmStartRecovery_mask_mono (my : Nat) (s : MtmState) (j : Nat)
    (h : s.disabledNodeMask.testBit j = true) :
    (MtmStartRecovery my s).disabledNodeMask.testBit j = true := by
  simp [MtmStartRecovery, MtmSwitchClusterMode, testBit_setBit, h]

/-- Effect of the `MtmDisableNode` loop of `MtmRefreshClusterStatus` on the
disabled mask: a bit ends set iff it was set before or is a set bit of
`bits` whose index is in the iteration list. -/
theorem refresh_disableFold_testBit (bits : Nat) (t : Int) (my : Nat) :
    ∀ (l : List Nat) (s : MtmState) (j : Nat),
      ((l.foldl
        (fun st i => if bits.testBit i then MtmDisableNode (i + 1) t my st else st)
        s).disabledNodeMask.testBit j)
      = (s.disabledNodeMask.testBit j || (decide (j ∈ l) && bits.testBit j)) := by
  intro l
  induction l with
  | nil => intro s j; simp
  | cons i l ih =>
    intro s j
    rw [List.foldl_cons]
    by_cases hbi : bits.testBit i = true
    · rw [if_pos hbi, ih]
      have hmask : (MtmDisableNode (i + 1) t my s).disabledNodeMask =
          setBit s.disabledNodeMask i := rfl
      rw [hmask, testBit_setBit]
      by_cases hji : j = i
      · subst hji; simp [hbi]
      · simp [hji, List.mem_cons]
    · rw [if_neg hbi, ih]
      by_cases hji : j = i
      · subst hji
        simp only [Bool.not_eq_true] at hbi
        simp [hbi]
      · simp [hji, List.mem_cons]

theorem pglogical_write_change_filtered (c : TxnChange) (st : ProtoState)
    (h : st.isFilteredTxn = true) : pglogical_write_change c st = st := by
  cases c <;>
    simp [pglogical_write_change, pglogical_write_rel, pglogical_write_insert,
      pglogical_write_update, pglogical_write_delete, h]

theorem pglogical_write_change_open (c : TxnChange) (o : List ProtoMsg) :
    pglogical_write_change c ⟨false, o⟩ = ⟨false, o ++ [msgOfChange c]⟩ := by
  cases c <;> rfl

theorem pglogical_fold_filtered (changes : List TxnChange) (st : ProtoState)
    (h : st.isFilteredTxn = true) :
    changes.foldl (fun s c => pglogical_write_change c s) st = st := by
  induction changes with
  | nil => rfl
  | cons c cs ih => rw [List.foldl_cons, pglogical_write_change_filtered c st h, ih]

theorem pglogical_fold_open (changes : List TxnChange) (o : List ProtoMsg) :
    changes.foldl (fun s c => pglogical_write_change c s) ⟨false, o⟩
      = ⟨false, o ++ changes.map msgOfChange⟩ := by
  induction changes generalizing o with
  | nil => simp
  | cons c cs ih =>
    rw [List.foldl_cons, pglogical_write_change_open, ih]
    simp

/-- Membership in the watchdog's disconnect list forces every clause of the
scan condition at the corresponding node index. -/
theorem MtmWatchdog_mem (now tmo : Int) (my : Nat) (s : MtmState) (x : Nat)
    (hx : x ∈ (MtmWatchdog now tmo my s).2) :
    ∃ i, i < s.nAllNodes ∧ x = i + 1 ∧ i + 1 ≠ my ∧
      s.disabledNodeMask.testBit i = false ∧
      (s.nodes.getD i default).lastHeartbeat ≠ 0 ∧
      (s.nodes.getD i default).lastHeartbeat + MSEC_TO_USEC tmo < now := by
  simp only [MtmWatchdog, List.mem_filterMap, List.mem_range] at hx
  obtain ⟨i, hi, hif⟩ := hx
  by_cases hcond : i + 1 ≠ my ∧ ¬ s.disabledNodeMask.testBit i ∧
      (s.nodes.getD i default).lastHeartbeat ≠ 0 ∧
      (s.nodes.getD i default).lastHeartbeat + MSEC_TO_USEC tmo < now
  · rw [if_pos hcond] at hif
    obtain ⟨h1, h2, h3, h4⟩ := hcond
    have hx2 : i + 1 = x := by simpa using hif
    exact ⟨i, hi, hx2.symm, h1, by simpa using h2, h3, h4⟩
  · rw [if_neg hcond] at hif
    exact absurd hif (by simp)

theorem refreshOwnStatus_mask_mono (my : Nat) (s2 : MtmState) (j : Nat)
    (h : s2.disabledNodeMask.testBit j = true) :
    (refreshOwnStatus my s2).disabledNodeMask.testBit j = true := by
  rw [refreshOwnStatus]
  split
  · split
    · exact h
    · exact h
  · split
    · exact MtmStartRecovery_mask_mono my s2 j h
    · exact h

theorem refreshDisableAll_testBit (clique : Nat) (my : Nat) (t : Int)
    (s : MtmState) (j : Nat) :
    (refreshDisableAll clique my t s).disabledNodeMask.testBit j
      = (s.disabledNodeMask.testBit j ||
        (decide (j ∈ List.range s.nAllNodes) &&
          (refreshNewDisabled clique s).testBit j)) := by
  rw [refreshDisableAll]
  exact refresh_disableFold_testBit (refreshNewDisabled clique s) t my
    (List.range s.nAllNodes) s j

theorem lastHeartbeat_after_set (l : List MtmNodeInfo) (i : Nat) (t : Int) :
    ((l.set i ⟨t, 0⟩).getD i default).lastHeartbeat = 0 := by
  induction l generalizing i with
  | nil => rfl
  | cons a l ih =>
    cases i with
    | zero => rfl
    | succ n =>
      simp only [List.set_cons_succ, List.getD_cons_succ]
      exact ih n

/-! ### Claim theorems -/

/-- **C1.** For every visibility check on an XID whose `MtmTransState` is
found (here: found on the first lookup), the tuple is reported invisible
(`.ok true`, "xid in snapshot") when the state's CSN is greater than the
snapshot or the state is aborted, and reported visible (`.ok false`) when
the state is committed and its CSN is at most the snapshot. -/
theorem claim_C1_visibility (snapshot : Int) (obs : Nat → Option MtmTransState)
    (pg : Bool) (ts : MtmTransState) (hobs : obs 0 = some ts) :
    ((snapshot < ts.csn ∨ ts.status = XidStatus.aborted) →
      (MtmXidInMVCCSnapshot snapshot obs pg).1 = Except.ok true) ∧
    (ts.status = XidStatus.committed → ts.csn ≤ snapshot →
      (MtmXidInMVCCSnapshot snapshot obs pg).1 = Except.ok false) := by
  have h100 : MAX_WAIT_LOOPS = 99 + 1 := rfl
  constructor
  · rintro (hlt | hab)
    · simp [MtmXidInMVCCSnapshot, h100, MtmXidVisLoop, hobs, hlt]
    · by_cases hlt : snapshot < ts.csn
      · simp [MtmXidInMVCCSnapshot, h100, MtmXidVisLoop, hobs, hlt]
      · simp [MtmXidInMVCCSnapshot, h100, MtmXidVisLoop, hobs, hlt, hab]
  · intro hc hle
    have hlt : ¬ snapshot < ts.csn := by omega
    simp [MtmXidInMVCCSnapshot, h100, MtmXidVisLoop, hobs, hlt, hc]

/-- Witness for C1: a committed state with CSN 3 under snapshot 10 is
reported visible. -/
theorem claim_C1_visibility_witness :
    ((fun _ => some (⟨XidStatus.committed, 3⟩ : MtmTransState)) 0
      = some (⟨XidStatus.committed, 3⟩ : MtmTransState)) ∧
    (MtmXidInMVCCSnapshot 10 (fun _ => some ⟨XidStatus.committed, 3⟩) false).1
      = Except.ok false :=
  ⟨rfl,
    (claim_C1_visibility 10 (fun _ => some ⟨XidStatus.committed, 3⟩) false
      ⟨XidStatus.committed, 3⟩ rfl).2 rfl (by decide)⟩

/-- **C2.** `MtmAssignCSN` returns `max(now(), last-csn + 1)` and records the
returned value as the new `Mtm->csn`; consequently any sequence of calls on
one node returns strictly increasing CSNs. -/
theorem claim_C2_assign_csn :
    (∀ (w : Int) (s : MtmClockState),
      (MtmAssignCSN w s).1 = max (MtmGetCurrentTime w s) (s.csn + 1) ∧
      (MtmAssignCSN w s).2.csn = (MtmAssignCSN w s).1) ∧
    (∀ (ws : List Int) (s : MtmClockState),
      List.Chain' (fun a b => a < b) (MtmAssignCSNSeq ws s).1) :=
  ⟨fun w s => ⟨MtmAssignCSN_fst w s, MtmAssignCSN_snd_csn w s⟩,
   MtmAssignCSNSeq_chain⟩

/-- **C6.** When the visibility check keeps finding the XID in-doubt
(status `unknown`, CSN within the snapshot), it releases the lock before
every sleep, doubles the sleep interval according to `visNextDelay` (which
caps it at `MAX_WAIT_TIMEOUT`), sleeps through all `MAX_WAIT_LOOPS = 100`
retries and then raises the error `"Failed to get status of XID"` as the
query's result;  the checker mutates no transaction state: neither the
reader's transaction nor the in-doubt one appears in the result, which is
an error value only. -/
theorem claim_C6_indoubt_retries (snapshot : Int)
    (obs : Nat → Option MtmTransState) (pg : Bool)
    (hstuck : ∀ j, ∃ ts, obs j = some ts ∧ ts.status = XidStatus.unknown ∧
      ts.csn ≤ snapshot) :
    (MtmXidInMVCCSnapshot snapshot obs pg).1 = Except.error visStatusErrorMsg ∧
    sleepCount (MtmXidInMVCCSnapshot snapshot obs pg).2 = MAX_WAIT_LOOPS ∧
    sleepsFollowUnlock (MtmXidInMVCCSnapshot snapshot obs pg).2 = true ∧
    List.Chain' (fun a b => b = visNextDelay a)
      (sleepDelays (MtmXidInMVCCSnapshot snapshot obs pg).2) ∧
    ∀ d ∈ sleepDelays (MtmXidInMVCCSnapshot snapshot obs pg).2,
      MIN_WAIT_TIMEOUT ≤ d ∧ d ≤ MAX_WAIT_TIMEOUT := by
  obtain ⟨herr, hcnt⟩ :=
    visLoop_stuck_unknown snapshot obs pg hstuck MAX_WAIT_LOOPS 0 MIN_WAIT_TIMEOUT
  refine ⟨herr, ?_, vis_trace_sleepsFollowUnlock snapshot obs pg, ?_, ?_⟩
  · simpa [MtmXidInMVCCSnapshot, sleepCount, List.filter, isSleep] using hcnt
  · have hch := (visLoop_delays_chain snapshot obs pg MAX_WAIT_LOOPS 0
      MIN_WAIT_TIMEOUT).2
    simpa [MtmXidInMVCCSnapshot, sleepDelays] using hch
  · intro d hd
    have hb := visLoop_delays_bounded snapshot obs pg MAX_WAIT_LOOPS 0
      MIN_WAIT_TIMEOUT (le_refl _) (by decide)
    exact hb d (by simpa [MtmXidInMVCCSnapshot, sleepDelays] using hd)

/-- Witness for C6: an always-unknown observation stream produces the
visibility error. -/
theorem claim_C6_indoubt_retries_witness :
    (∀ j : Nat, ∃ ts : MtmTransState,
      (fun _ => some (⟨XidStatus.unknown, 0⟩ : MtmTransState)) j = some ts ∧
      ts.status = XidStatus.unknown ∧ ts.csn ≤ (0 : Int)) ∧
    (MtmXidInMVCCSnapshot 0 (fun _ => some ⟨XidStatus.unknown, 0⟩) false).1
      = Except.error visStatusErrorMsg :=
  ⟨fun _ => ⟨⟨XidStatus.unknown, 0⟩, rfl, rfl, le_refl 0⟩,
    (claim_C6_indoubt_retries 0 (fun _ => some ⟨XidStatus.unknown, 0⟩) false
      (fun _ => ⟨⟨XidStatus.unknown, 0⟩, rfl, rfl, le_refl 0⟩)).1⟩

/-- **C3.** When the connectivity-based cluster-status refresh runs with the
computed maximum clique: (1) no node already in `disabledNodeMask` is
removed from it by this computation; (2) with quorum
(`|clique| ≥ ⌊N/2⌋ + 1`) every node outside the clique ends up in
`disabledNodeMask` (the clique is adopted as the live set); (3) without
quorum nothing is disabled or enabled and the node switches to the
in-minority status. -/
theorem claim_C3_refresh_cluster_status (clique cliqueSize myNodeId : Nat)
    (sysTime : Int) (s : MtmState) :
    (∀ j, s.disabledNodeMask.testBit j = true →
      (MtmRefreshClusterStatus clique cliqueSize myNodeId sysTime
        s).disabledNodeMask.testBit j = true) ∧
    (s.nAllNodes / 2 + 1 ≤ cliqueSize →
      ∀ j, j < s.nAllNodes → clique.testBit j = false →
        (MtmRefreshClusterStatus clique cliqueSize myNodeId sysTime
          s).disabledNodeMask.testBit j = true) ∧
    (cliqueSize < s.nAllNodes / 2 + 1 →
      MtmRefreshClusterStatus clique cliqueSize myNodeId sysTime s
        = MtmSwitchClusterMode MtmNodeStatus.inMinority s) := by
  have hkey : s.nAllNodes / 2 + 1 ≤ cliqueSize →
      ∀ j, (s.disabledNodeMask.testBit j = true ∨
        (j < s.nAllNodes ∧ (refreshNewDisabled clique s).testBit j = true)) →
      (MtmRefreshClusterStatus clique cliqueSize myNodeId sysTime
        s).disabledNodeMask.testBit j = true := by
    intro hq j hj
    rw [MtmRefreshClusterStatus, if_pos hq]
    apply refreshOwnStatus_mask_mono
    have h1 : (refreshDisableAll clique myNodeId sysTime
        s).disabledNodeMask.testBit j = true := by
      rw [refreshDisableAll_testBit]
      rcases hj with hj | ⟨hjn, hjd⟩
      · simp [hj]
      · simp [hjd, List.mem_range, hjn]
    split
    · rw [MtmCheckQuorum_mask]; exact h1
    · exact h1
  refine ⟨?_, ?_, ?_⟩
  · intro j hj
    by_cases hq : s.nAllNodes / 2 + 1 ≤ cliqueSize
    · exact hkey hq j (Or.inl hj)
    · rw [MtmRefreshClusterStatus, if_neg hq]
      exact hj
  · intro hq j hjn hjc
    by_cases hdj : s.disabledNodeMask.testBit j = true
    · exact hkey hq j (Or.inl hdj)
    · refine hkey hq j (Or.inr ⟨hjn, ?_⟩)
      rw [refreshNewDisabled, testBit_andNot, testBit_andNot, testBit_onesMask]
      simp only [Bool.not_eq_true] at hdj
      simp [hjn, hjc, hdj]
  · intro hq
    rw [MtmRefreshClusterStatus, if_neg (by omega)]

/-- Witness for C3: a 3-node cluster, node 1 already disabled, clique
`{1,2}` of size 2 (a quorum): node 3 (outside the clique) is disabled and
node 1 stays disabled. -/
theorem claim_C3_refresh_cluster_status_witness :
    ((⟨1, 0, 0, 0, 0, 2, 3, 0, 0, MtmNodeStatus.online,
        [default, default, default]⟩ : MtmState).disabledNodeMask.testBit 0
      = true) ∧
    ((3 : Nat) / 2 + 1 ≤ 2 ∧ 2 < 3 ∧ (3 : Nat).testBit 2 = false) ∧
    (MtmRefreshClusterStatus 3 2 1 0
        ⟨1, 0, 0, 0, 0, 2, 3, 0, 0, MtmNodeStatus.online,
          [default, default, default]⟩).disabledNodeMask.testBit 0 = true ∧
    (MtmRefreshClusterStatus 3 2 1 0
        ⟨1, 0, 0, 0, 0, 2, 3, 0, 0, MtmNodeStatus.online,
          [default, default, default]⟩).disabledNodeMask.testBit 2 = true :=
  ⟨by decide, ⟨by decide, by decide, by decide⟩,
    (claim_C3_refresh_cluster_status 3 2 1 0 _).1 0 (by decide),
    (claim_C3_refresh_cluster_status 3 2 1 0 _).2.1 (by decide) 2 (by decide)
      (by decide)⟩

/-- **C4.** For a recovering (disabled) node observed by its donor's
wal-sender in a recovery session: the node is enabled — disabled bit
cleared, node-locker bit cleared, the wal-sender locker bit cleared when it
had been set, config-change counter advanced — exactly when `slot-lsn`
equals the WAL insert position and the donor has no active transactions;
otherwise the node stays disabled and at most the locker bits and counter
are set (the almost-caught-up case). -/
theorem claim_C4_recovery_caught_up (nodeId slotLSN walLSN wsIdx lag : Nat)
    (sysTime : Int) (my : Nat) (s : MtmState)
    (hdis : s.disabledNodeMask.testBit (nodeId - 1) = true) :
    (slotLSN = walLSN → s.nActiveTransactions = 0 →
      ∃ s2, MtmRecoveryCaughtUp nodeId slotLSN walLSN wsIdx lag true sysTime my s
          = Except.ok (true, s2) ∧
        s2.disabledNodeMask.testBit (nodeId - 1) = false ∧
        s2.nodeLockerMask.testBit (nodeId - 1) = false ∧
        (s.nodeLockerMask.testBit (nodeId - 1) = true →
          s2.walSenderLockerMask.testBit wsIdx = false) ∧
        s2.nConfigChanges = s.nConfigChanges + 1) ∧
    (¬ (slotLSN = walLSN ∧ s.nActiveTransactions = 0) →
      ∃ s2, MtmRecoveryCaughtUp nodeId slotLSN walLSN wsIdx lag true sysTime my s
          = Except.ok (false, s2) ∧
        s2.disabledNodeMask = s.disabledNodeMask ∧
        s2.status = s.status ∧ s2.nodes = s.nodes ∧
        s2.nConfigChanges = s.nConfigChanges ∧
        (s2 = s ∨
          (s2.nodeLockerMask = setBit s.nodeLockerMask (nodeId - 1) ∧
           s2.walSenderLockerMask = setBit s.walSenderLockerMask wsIdx ∧
           s2.nLockers = s.nLockers + 1))) := by
  constructor
  · intro hslot hact
    rw [MtmRecoveryCaughtUp, if_pos hdis, if_neg (by simp), if_pos ⟨hslot, hact⟩]
    by_cases hlk : s.nodeLockerMask.testBit (nodeId - 1) = true
    · refine ⟨_, rfl, ?_, ?_, ?_, ?_⟩
      · simp [hlk, MtmEnableNode, testBit_clearBit]
      · simp [hlk, MtmEnableNode, testBit_clearBit]
      · intro _; simp [hlk, MtmEnableNode, testBit_clearBit]
      · simp [hlk, MtmEnableNode]
    · refine ⟨_, rfl, ?_, ?_, ?_, ?_⟩
      · simp [hlk, MtmEnableNode, testBit_clearBit]
      · simp only [Bool.not_eq_true] at hlk
        simp [hlk, MtmEnableNode]
      · intro hc; rw [hc] at hlk; exact absurd rfl hlk
      · simp [hlk, MtmEnableNode]
  · intro hne
    rw [MtmRecoveryCaughtUp, if_pos hdis, if_neg (by simp), if_neg hne]
    by_cases halm : ¬ s.nodeLockerMask.testBit (nodeId - 1) ∧
        walLSN < slotLSN + lag
    · rw [if_pos halm]
      exact ⟨_, rfl, rfl, rfl, rfl, rfl, Or.inr ⟨rfl, rfl, rfl⟩⟩
    · rw [if_neg halm]
      exact ⟨s, rfl, rfl, rfl, rfl, rfl, Or.inl rfl⟩

/-- Witness for C4: node 2 of a 2-node cluster is disabled; with
`slot-lsn = wal-lsn = 5` and no active transactions it is enabled. -/
theorem claim_C4_recovery_caught_up_witness :
    ((⟨2, 0, 0, 0, 0, 1, 2, 0, 0, MtmNodeStatus.online,
        [default, default]⟩ : MtmState).disabledNodeMask.testBit 1 = true) ∧
    ∃ s2, MtmRecoveryCaughtUp 2 5 5 0 10 true 0 1
        ⟨2, 0, 0, 0, 0, 1, 2, 0, 0, MtmNodeStatus.online, [default, default]⟩
        = Except.ok (true, s2) ∧
      s2.disabledNodeMask.testBit 1 = false ∧
      s2.nodeLockerMask.testBit 1 = false ∧
      ((⟨2, 0, 0, 0, 0, 1, 2, 0, 0, MtmNodeStatus.online,
          [default, default]⟩ : MtmState).nodeLockerMask.testBit 1 = true →
        s2.walSenderLockerMask.testBit 0 = false) ∧
      s2.nConfigChanges =
        (⟨2, 0, 0, 0, 0, 1, 2, 0, 0, MtmNodeStatus.online,
          [default, default]⟩ : MtmState).nConfigChanges + 1 :=
  ⟨by decide,
    (claim_C4_recovery_caught_up 2 5 5 0 10 0 1 _ (by decide)).1 rfl rfl⟩

/-- **C10.** The watchdog never hands a node with `lastHeartbeat = 0` to
`MtmOnNodeDisconnect`; both `MtmDisableNode` and `MtmEnableNode` reset the
node's `lastHeartbeat` to 0, so a node whose status just changed is not
timed out before its next heartbeat. -/
theorem claim_C10_watchdog_zero_heartbeat (now tmo : Int) (my : Nat)
    (s : MtmState) :
    (∀ i, (s.nodes.getD i default).lastHeartbeat = 0 →
      (i + 1) ∉ (MtmWatchdog now tmo my s).2) ∧
    (∀ nodeId, ∀ t : Int, 1 ≤ nodeId →
      ((MtmDisableNode nodeId t my s).nodes.getD (nodeId - 1)
          default).lastHeartbeat = 0 ∧
      ((MtmEnableNode nodeId t my s).nodes.getD (nodeId - 1)
          default).lastHeartbeat = 0 ∧
      nodeId ∉ (MtmWatchdog now tmo my (MtmDisableNode nodeId t my s)).2 ∧
      nodeId ∉ (MtmWatchdog now tmo my (MtmEnableNode nodeId t my s)).2) := by
  have hzero : ∀ (s3 : MtmState) (i : Nat),
      (s3.nodes.getD i default).lastHeartbeat = 0 →
      (i + 1) ∉ (MtmWatchdog now tmo my s3).2 := by
    intro s3 i h0 hmem
    obtain ⟨i2, _, heq, _, _, hne, _⟩ := MtmWatchdog_mem now tmo my s3 (i + 1) hmem
    have : i2 = i := by omega
    subst this
    exact hne h0
  refine ⟨fun i => hzero s i, ?_⟩
  intro nodeId t h1
  have hd : ((MtmDisableNode nodeId t my s).nodes.getD (nodeId - 1)
      default).lastHeartbeat = 0 := lastHeartbeat_after_set s.nodes (nodeId - 1) t
  have he : ((MtmEnableNode nodeId t my s).nodes.getD (nodeId - 1)
      default).lastHeartbeat = 0 := lastHeartbeat_after_set s.nodes (nodeId - 1) t
  have hid : nodeId - 1 + 1 = nodeId := by omega
  refine ⟨hd, he, ?_, ?_⟩
  · have := hzero (MtmDisableNode nodeId t my s) (nodeId - 1) hd
    rwa [hid] at this
  · have := hzero (MtmEnableNode nodeId t my s) (nodeId - 1) he
    rwa [hid] at this

/-- Witness for C10: disabling node 2 resets its heartbeat and the watchdog
does not disconnect it even far past the timeout. -/
theorem claim_C10_watchdog_zero_heartbeat_witness :
    (1 : Nat) ≤ 2 ∧
    (2 : Nat) ∉ (MtmWatchdog 1000000000 1 1
      (MtmDisableNode 2 7 1
        ⟨0, 0, 0, 0, 0, 2, 2, 0, 0, MtmNodeStatus.online,
          [⟨1, 1⟩, ⟨1, 1⟩]⟩)).2 :=
  ⟨by decide,
    ((claim_C10_watchdog_zero_heartbeat 1000000000 1 1
      ⟨0, 0, 0, 0, 0, 2, 2, 0, 0, MtmNodeStatus.online,
        [⟨1, 1⟩, ⟨1, 1⟩]⟩).2 2 7 (by decide)).2.2.1⟩

/-- **C5.** The coordinator's PREPARE-vote deadline is
`max(MSEC_TO_USEC(min-2pc-timeout), (csn0 - snapshot) * prepare-ratio / 100)`
(csn0 the CSN assigned at prepare, snapshot the begin snapshot); once that
time has elapsed the wait loop cannot continue, and when the votes are not
complete the transaction is aborted. -/
theorem claim_C5_prepare_timeout (min2pc ratio csn0 snapshot start now
      cfg0 cfg : Int) (votingCompleted : Bool) (clusterStatus : MtmNodeStatus)
    (tsStatus : XidStatus) :
    MtmPostPrepareTransTimeout min2pc ratio csn0 snapshot
      = max (MSEC_TO_USEC min2pc) ((csn0 - snapshot) * ratio / 100) ∧
    (start + MtmPostPrepareTransTimeout min2pc ratio csn0 snapshot < now →
      postPrepareWaitCond votingCompleted cfg0 cfg clusterStatus tsStatus start
        (MtmPostPrepareTransTimeout min2pc ratio csn0 snapshot) now = false) ∧
    (votingCompleted = false → tsStatus ≠ XidStatus.aborted →
      postPrepareAborts tsStatus votingCompleted cfg0 cfg = true) := by
  refine ⟨rfl, ?_, ?_⟩
  · intro h
    have hd : decide (now ≤ start +
        MtmPostPrepareTransTimeout min2pc ratio csn0 snapshot) = false := by
      simp only [decide_eq_false_iff_not]
      omega
    simp [postPrepareWaitCond, hd]
  · intro hv hts
    simp [postPrepareAborts, hv, hts]

/-- Witness for C5: a transaction with prepare latency 200000 µs, ratio 200
and minimum timeout 100 ms whose deadline has passed stops waiting and is
aborted when votes are incomplete. -/
theorem claim_C5_prepare_timeout_witness :
    ((0 : Int) + MtmPostPrepareTransTimeout 100 200 300000 100000 < 500000) ∧
    postPrepareWaitCond false 0 0 MtmNodeStatus.online
      XidStatus.inProgress 0
      (MtmPostPrepareTransTimeout 100 200 300000 100000) 500000 = false ∧
    postPrepareAborts XidStatus.inProgress false 0 0 = true :=
  ⟨by decide,
    (claim_C5_prepare_timeout 100 200 300000 100000 0 500000 0 0 false
      MtmNodeStatus.online XidStatus.inProgress).2.1 (by decide),
    (claim_C5_prepare_timeout 100 200 300000 100000 0 500000 0 0 false
      MtmNodeStatus.online XidStatus.inProgress).2.2 rfl (by decide)⟩

/-- **C7.** On the replication output side, a transaction whose snapshot CSN
is invalid and whose receiver is not in recovery has its BEGIN dropped (the
transaction is marked filtered) and none of its RELATION / INSERT / UPDATE /
DELETE records reach the stream; a transaction with a valid CSN, or one
sent to a recovering node, is emitted in full starting with the `B`
record. -/
theorem claim_C7_output_filter (isRecovery : Bool) (csn : Int) (my xid : Nat)
    (changes : List TxnChange) (st : ProtoState) :
    (csn = INVALID_CSN → isRecovery = false →
      pglogical_write_txn isRecovery csn my xid changes st
        = { st with isFilteredTxn := true }) ∧
    (csn ≠ INVALID_CSN ∨ isRecovery = true →
      pglogical_write_txn isRecovery csn my xid changes st
        = ⟨false, st.out ++
            ProtoMsg.beginMsg my (if isRecovery then INVALID_XID else xid) csn
              :: changes.map msgOfChange⟩) := by
  constructor
  · intro hc hr
    rw [pglogical_write_txn, pglogical_write_begin,
      if_pos ⟨hc, by simp [hr]⟩]
    exact pglogical_fold_filtered changes _ rfl
  · intro h
    have hcond : ¬ (csn = INVALID_CSN ∧ ¬ isRecovery = true) := by
      rcases h with h | h
      · exact fun hh => h hh.1
      · simp [h]
    rw [pglogical_write_txn, pglogical_write_begin, if_neg hcond,
      pglogical_fold_open]
    simp

/-- Witness for C7: a valid-CSN transaction with one INSERT is emitted as
`B` followed by `I`; an invalid-CSN, non-recovery transaction with the same
change emits nothing. -/
theorem claim_C7_output_filter_witness :
    ((42 : Int) ≠ INVALID_CSN ∨ false = true) ∧
    pglogical_write_txn false 42 1 7 [TxnChange.chInsert] ⟨false, []⟩
      = ⟨false, [ProtoMsg.beginMsg 1 7 42, ProtoMsg.insertMsg]⟩ ∧
    pglogical_write_txn false INVALID_CSN 1 7 [TxnChange.chInsert] ⟨false, []⟩
      = ⟨true, []⟩ :=
  ⟨Or.inl (by decide),
    (claim_C7_output_filter false 42 1 7 [TxnChange.chInsert]
      ⟨false, []⟩).2 (Or.inl (by decide)),
    (claim_C7_output_filter false INVALID_CSN 1 7 [TxnChange.chInsert]
      ⟨false, []⟩).1 rfl rfl⟩

/-- **C8 counterexample.** Running `sync(5)` twice from clock state
`(csn = 0, timeShift = 0)` does not yield the same clock state as running
it once: every call drives `Mtm->csn` strictly upward (each `sync` performs
at least one `MtmAssignCSN`), so the full clock state is not idempotent
under `sync`. -/
theorem claim_C8_counterexample :
    (MtmSyncClock 5 (fun _ => 0) 0
        ((MtmSyncClock 5 (fun _ => 0) 0 ⟨0, 0⟩).2)).2
      ≠ (MtmSyncClock 5 (fun _ => 0) 0 ⟨0, 0⟩).2 := by
  intro h
  have hm := MtmSyncClock_monotone 5 (fun _ => 0) 0
    ((MtmSyncClock 5 (fun _ => 0) 0 ⟨0, 0⟩).2)
  rw [h] at hm
  exact lt_irrefl _ hm.1

/-- **C8 (amended).** `sync(external-csn)` returns a value ≥ `external-csn`
and never moves the clock backward (`timeShift` never decreases, `csn`
strictly advances); repeating `sync` with the same or a smaller argument
leaves `timeShift` — the clock-skew adjustment — unchanged, while the
`csn` component still advances as on every `assign-csn` call. -/
theorem claim_C8_sync_clock (global : Int) (walls : Nat → Int) (k : Nat)
    (s : MtmClockState) :
    global ≤ (MtmSyncClock global walls k s).1 ∧
    s.timeShift ≤ (MtmSyncClock global walls k s).2.timeShift ∧
    s.csn < (MtmSyncClock global walls k s).2.csn ∧
    ∀ (g2 : Int) (walls2 : Nat → Int) (k2 : Nat), g2 ≤ global →
      (MtmSyncClock g2 walls2 k2 (MtmSyncClock global walls k s).2).2.timeShift
        = (MtmSyncClock global walls k s).2.timeShift := by
  obtain ⟨hc, ht, he⟩ := MtmSyncClock_monotone global walls k s
  refine ⟨MtmSyncClock_fst_ge global walls k s, ht, hc, ?_⟩
  intro g2 walls2 k2 hg2
  have hge := MtmSyncClock_fst_ge global walls k s
  exact (MtmSyncClock_already_synced g2 walls2 k2 _ (by omega)).2

/-- Witness for C8 (amended): a second `sync(3)` after `sync(5)` leaves the
time shift unchanged. -/
theorem claim_C8_sync_clock_witness :
    (3 : Int) ≤ 5 ∧
    (MtmSyncClock 3 (fun _ => 1) 0
        ((MtmSyncClock 5 (fun _ => 0) 0 ⟨0, 0⟩).2)).2.timeShift
      = (MtmSyncClock 5 (fun _ => 0) 0 ⟨0, 0⟩).2.timeShift :=
  ⟨by decide,
    (claim_C8_sync_clock 5 (fun _ => 0) 0 ⟨0, 0⟩).2.2.2 3 (fun _ => 1) 0
      (by decide)⟩

/-- **C9 counterexample.** A distributed transaction beginning at
serializable isolation on an online node is *not* rejected:
`MtmBeginTransaction` succeeds, merely emitting the
"Isolation level is not supported" log line (the C code uses `elog(LOG, ...)`,
not `elog(ERROR, ...)`, at multimaster.c lines 736-738). -/
theorem claim_C9_counterexample :
    MtmBeginTransaction
      ⟨0, false, false, false, false, false, INVALID_CSN, 0, "",
        XidStatus.inProgress⟩
      true MtmNodeStatus.online false IsoLevel.serializable 7 true 100 ⟨0, 0⟩
      = Except.ok
        (⟨7, false, true, false, true, false, 100, 0, "",
          XidStatus.inProgress⟩,
         ⟨100, 0⟩, ["Isolation level is not supported by multimaster"]) := by
  rfl

/-- **C9 (amended).** A would-be-distributed transaction beginning with an
isolation level other than repeatable read is not rejected at BEGIN: on an
online node it starts normally and only a log message is recorded; the one
BEGIN-time rejection is a non-admin distributed transaction on a node that
is not online. -/
theorem claim_C9_isolation_level (x : MtmCurrentTrans)
    (clusterStatus : MtmNodeStatus) (appNameIsAdmin : Bool)
    (isoLevel : IsoLevel) (currentXid : Nat) (inTxBlock : Bool) (wall : Int)
    (clock : MtmClockState) (hsnap : x.snapshot = INVALID_CSN)
    (hiso : isoLevel ≠ XACT_REPEATABLE_READ) :
    (clusterStatus = MtmNodeStatus.online →
      ∃ x1 c1, MtmBeginTransaction x true clusterStatus appNameIsAdmin isoLevel
          currentXid inTxBlock wall clock
        = Except.ok (x1, c1,
            ["Isolation level is not supported by multimaster"])) ∧
    (clusterStatus ≠ MtmNodeStatus.online → appNameIsAdmin = false →
      MtmBeginTransaction x true clusterStatus appNameIsAdmin isoLevel
          currentXid inTxBlock wall clock
        = Except.error "Multimaster node is not online") := by
  constructor
  · intro hon
    rw [MtmBeginTransaction, if_pos hsnap, if_neg (by simp [hon])]
    refine ⟨{ x with
        xid := currentXid
        isReplicated := false
        isDistributed := true
        isPrepared := false
        isTransactionBlock := inTxBlock
        containsDML := false
        snapshot := (MtmAssignCSN wall clock).1
        gtidXid := INVALID_XID
        gid := ""
        status := XidStatus.inProgress },
      (MtmAssignCSN wall clock).2, ?_⟩
    simp [hiso]
  · intro hnot hadm
    rw [MtmBeginTransaction, if_pos hsnap,
      if_pos ⟨rfl, hnot, by simp [hadm]⟩]

/-- Witness for C9 (amended): a read-committed distributed BEGIN on an
online node succeeds with the log line. -/
theorem claim_C9_isolation_level_witness :
    ((⟨0, false, false, false, false, false, INVALID_CSN, 0, "",
        XidStatus.inProgress⟩ : MtmCurrentTrans).snapshot = INVALID_CSN ∧
      IsoLevel.readCommitted ≠ XACT_REPEATABLE_READ) ∧
    ∃ x1 c1, MtmBeginTransaction
        ⟨0, false, false, false, false, false, INVALID_CSN, 0, "",
          XidStatus.inProgress⟩
        true MtmNodeStatus.online true IsoLevel.readCommitted 3 false 5 ⟨0, 0⟩
      = Except.ok (x1, c1,
          ["Isolation level is not supported by multimaster"]) :=
  ⟨⟨rfl, by decide⟩,
    (claim_C9_isolation_level _ MtmNodeStatus.online true
      IsoLevel.readCommitted 3 false 5 ⟨0, 0⟩ rfl (by decide)).1 rfl⟩

end Mmts
